import Mathlib

/-!
Shallow embedding of the Eleanor orchestrator's deliberation core
(fusion pipeline, mode gate, hybrid core, runtime shell, router, event bus),
translated from the Python sources under `V7/`.

Python floats are modelled as rationals (`ℚ`); Python dicts whose iteration
order matters are modelled as association lists (`List (String × α)`),
matching dict insertion order; a Python function that can raise is modelled
as returning `Option`/`Except`.
-/

namespace Eleanor

/-- A critic judgment, as consumed by the fusion layer:
`{"score": float, "confidence": float, "violation": bool, "rationale": str}`. -/
structure Judgment where
  score : ℚ
  confidence : ℚ
  violation : Bool
  rationale : String
deriving Repr, DecidableEq

/-- The judgments map `critic name → judgment` (Python dict, insertion order). -/
abbrev Judgments := List (String × Judgment)

/-! ## CriticFusion (`orchestrator/fusion/critic_fusion.py`) -/

/-- Embeds `CriticFusion.RIGHTS_CRITICS = {"rights"}`. -/
def RIGHTS_CRITICS : List String := ["rights"]

/-- Embeds `CriticFusion.DEFAULT_WEIGHTS`. -/
def DEFAULT_WEIGHTS : List (String × ℚ) :=
  [("rights", 0), ("risk", 1/4), ("fairness", 1/4), ("truth", 1/4), ("pragmatics", 1/4)]

/-- Embeds `self.weights.get(name, 0.0)`. -/
def weightsGet (weights : List (String × ℚ)) (name : String) : ℚ :=
  match weights.find? (fun p => p.1 == name) with
  | some p => p.2
  | none => 0

/-- Result shape of `CriticFusion.fuse`; `details` holds the
`{"critic_outputs": critics}` payload. -/
structure FusionOutcome where
  aggregate_score : ℚ
  violations : List String
  lex_block : Bool
  details : Judgments
deriving Repr, DecidableEq

/-- Phase 1 of `fuse`: the names of rights-critics with `violation = true`,
in map order. -/
def lexViolations (critics : Judgments) : List String :=
  (critics.filter (fun p => RIGHTS_CRITICS.contains p.1 && p.2.violation)).map (fun p => p.1)

/-- Phase 2 of `fuse`: `total = Σ weights.get(name, 0) * score`. -/
def weightedTotal (weights : List (String × ℚ)) (critics : Judgments) : ℚ :=
  critics.foldl (fun acc p => acc + weightsGet weights p.1 * p.2.score) 0

/-- Embeds `CriticFusion.fuse` (async body; telemetry spans have no effect
on the returned value and are omitted). -/
def CriticFusion.fuse (weights : List (String × ℚ)) (critics : Judgments) : FusionOutcome :=
  let lv := lexViolations critics
  if lv.isEmpty then
    ⟨weightedTotal weights critics, [], false, critics⟩
  else
    ⟨0, lv, true, critics⟩

/-! ## UncertaintyEngine (`orchestrator/fusion/uncertainty_fusion.py`) -/

/-- Embeds `statistics.pvariance`: population variance (mean of squared deviations). -/
def pvariance (xs : List ℚ) : ℚ :=
  let n : ℚ := xs.length
  let mean := xs.sum / n
  ((xs.map (fun x => (x - mean) ^ 2)).sum) / n

/-- Result shape of `UncertaintyEngine.compute`. -/
structure UncertaintyOutcome where
  uncertainty : ℚ
  escalate : Bool
  dispersion : ℚ
  min_confidence : ℚ
deriving Repr, DecidableEq

/-- Embeds `UncertaintyEngine.compute`.  On an empty judgments map `min(confidences)`
raises `ValueError` in Python; this is modelled as `none`. -/
def UncertaintyEngine.compute (threshold : ℚ) (critics : Judgments) : Option UncertaintyOutcome :=
  let scores := critics.map (fun c => c.2.score)
  let confidences := critics.map (fun c => c.2.confidence)
  match confidences with
  | [] => none
  | c :: cs =>
    let minConf := cs.foldl min c
    let dispersion := if 1 < scores.length then pvariance scores else 0
    let lowConf : Bool := decide (minConf < 3/10)
    let raw := min 1 (dispersion * (5/2) + (if lowConf then (3/10 : ℚ) else 0))
    some ⟨raw, decide (threshold ≤ raw), dispersion, minConf⟩

/-! ## ConsensusFusion (`orchestrator/fusion/consensus_fusion.py`) -/

/-- The decision dict assembled by `ConsensusFusion.decide`. -/
structure Decision where
  action : String
  confidence : ℚ
  uncertainty : ℚ
  lex_block : Bool
  rationale : String
  precedent : List String
deriving Repr, DecidableEq

/-- Embeds `ConsensusFusion.decide`.  `precedentFetch` stands for the optional
`PrecedentEngine.fetch_relevant` (absent engine ⇒ `none`); `vector` is the
optional embedding vector.  The only exception path reaching the caller is
the uncertainty engine's failure on an empty map, modelled as `none`. -/
def ConsensusFusion.decide (weights : List (String × ℚ)) (threshold : ℚ)
    (precedentFetch : Option (List ℚ → List String))
    (critics : Judgments) (vector : Option (List ℚ)) : Option Decision :=
  let critic_out := CriticFusion.fuse weights critics
  if critic_out.lex_block then
    some ⟨"reject", 1, 0, true, "Rights-critical violation detected.", []⟩
  else
    let precedents :=
      match precedentFetch, vector with
      | some f, some v => f v
      | _, _ => []
    match UncertaintyEngine.compute threshold critics with
    | none => none
    | some unc =>
      some ⟨if unc.escalate then "escalate" else "proceed",
            critic_out.aggregate_score, unc.uncertainty, false,
            "Decision derived from Eleanor's multi-critic fusion logic.", precedents⟩

/-! ## Hybrid modes (`orchestrator/hybrid_core/hybrid_modes.py`) -/

/-- Embeds `HybridModeConfig` dataclass. -/
structure HybridModeConfig where
  name : String
  enforce_lex : Bool
  allow_override : Bool
  auto_escalate : Bool
  uncertainty_threshold : ℚ
  block_on_violation : Bool
  advisory_only : Bool
deriving Repr, DecidableEq

/-- Embeds `HybridMode.BALANCED`. -/
def HybridMode.BALANCED : HybridModeConfig :=
  ⟨"balanced", true, false, true, 7/20, true, false⟩

/-- Embeds `HybridMode.ADVISORY`. -/
def HybridMode.ADVISORY : HybridModeConfig :=
  ⟨"advisory", false, true, false, 1, false, true⟩

/-! ## Mode gate (`HybridCore._apply_mode`) -/

/-- A value returned by `_apply_mode`: either one of the wrapper dicts
`{"action": ..., "reason"?: ..., "fusion": ...}` or the fusion decision
returned verbatim. -/
inductive ModeOutput where
  | wrapped (action : String) (reason : Option String) (fusion : Decision)
  | verbatim (d : Decision)
deriving Repr, DecidableEq

/-- The `"action"` field of whichever dict `_apply_mode` returned. -/
def ModeOutput.action : ModeOutput → String
  | .wrapped a _ _ => a
  | .verbatim d => d.action

/-- Embeds `HybridCore._apply_mode`.  The `EscalationRequired` exception is modelled
as `Except.error` carrying its message. -/
def HybridCore.applyMode (mode : HybridModeConfig) (fusion_out : Decision) :
    Except String ModeOutput :=
  if fusion_out.lex_block && mode.enforce_lex then
    .ok (.wrapped "reject" (some "rights_violation") fusion_out)
  else if mode.advisory_only then
    .ok (.wrapped "advice" none fusion_out)
  else if fusion_out.action == "escalate" && mode.auto_escalate then
    .error "Uncertainty threshold exceeded."
  else
    .ok (.verbatim fusion_out)

/-! ## Critic fan-out (`HybridCore._evaluate_critics`) -/

/-- The zero-filled judgment substituted for a critic whose `evaluate`
raised with message `msg`. -/
def zeroJudgment (msg : String) : Judgment :=
  ⟨0, 0, false, "Critic error: " ++ msg⟩

/-- Embeds `HybridCore._evaluate_critics`: each critic's `evaluate(request, backend)`
either returns a judgment or raises; its outcome is a per-critic input
(`Except`), independent of the other critics.  A raising critic contributes
the zero-filled judgment; the fan-out itself is total. -/
def evaluateCritics (evals : List (String × Except String Judgment)) : Judgments :=
  evals.map (fun p => (p.1,
    match p.2 with
    | .ok j => j
    | .error e => zeroJudgment e))

/-! ## Hybrid core (`HybridCore.deliberate`) -/

/-- The exceptions `deliberate` lets escape: `EscalationRequired` is re-raised
as-is, every other exception is wrapped into `HybridCoreError(str(exc))`. -/
inductive HybridError where
  | escalationRequired (msg : String)
  | hybridCoreError (msg : String)
deriving Repr, DecidableEq

/-- The router's successful result as seen by `deliberate`: the backend
response with its optional `"embedding"` vector. -/
structure BackendResult where
  embedding : Option (List ℚ)
deriving Repr, DecidableEq

/-- Embeds `HybridCore.deliberate`: route/execute, fan out the critics, fuse,
apply the mode gate.  A router failure or a fusion failure is wrapped into
`HybridCoreError`; the mode gate's `EscalationRequired` propagates. -/
def HybridCore.deliberate (mode : HybridModeConfig) (weights : List (String × ℚ))
    (threshold : ℚ) (precedentFetch : Option (List ℚ → List String))
    (routerOutcome : Except String BackendResult)
    (criticEvals : List (String × Except String Judgment)) :
    Except HybridError ModeOutput :=
  match routerOutcome with
  | .error e => .error (.hybridCoreError e)
  | .ok backend =>
    let critics := evaluateCritics criticEvals
    match ConsensusFusion.decide weights threshold precedentFetch critics backend.embedding with
    | none => .error (.hybridCoreError "min() arg is an empty sequence")
    | some fusion_out =>
      match HybridCore.applyMode mode fusion_out with
      | .error msg => .error (.escalationRequired msg)
      | .ok out => .ok out

/-! ## Runtime shell (`orchestrator/runtime/runtime.py`) -/

/-- What `await asyncio.wait_for(self.hybrid.deliberate(request), timeout)`
delivers to the runtime's `try` block: the decision, an `EscalationRequired`,
or any other exception (timeout included). -/
inductive DelibOutcome where
  | ok (result : ModeOutput)
  | escalation (reason : String)
  | failure (msg : String)
deriving Repr, DecidableEq

/-- The envelope `EleanorRuntime.decide` returns to the caller. -/
inductive Envelope where
  | result (r : ModeOutput)
  | escalate (reason : String) (id : String)
  | error (msg : String) (id : String)
deriving Repr, DecidableEq

/-- The `"action"` field of the returned envelope. -/
def Envelope.action : Envelope → String
  | .result r => r.action
  | .escalate _ _ => "escalate"
  | .error _ _ => "error"

/-- Classifies the awaited deliberation for the runtime's `except` clauses:
`timedOut = true` stands for `asyncio.TimeoutError` from `wait_for` (caught by
the generic `except Exception`). -/
def runDeliberation (timedOut : Bool) (r : Except HybridError ModeOutput) : DelibOutcome :=
  if timedOut then .failure "TimeoutError"
  else
    match r with
    | .ok out => .ok out
    | .error (.escalationRequired msg) => .escalation msg
    | .error (.hybridCoreError msg) => .failure msg

/-- Embeds `EleanorRuntime.decide`'s `try/except` ladder: every outcome of the
deliberation is converted into an envelope; nothing is re-raised. -/
def EleanorRuntime.decide (reqId : String) (timedOut : Bool)
    (delib : Except HybridError ModeOutput) : Envelope :=
  match runDeliberation timedOut delib with
  | .ok result => .result result
  | .escalation reason => .escalate reason reqId
  | .failure msg => .error msg reqId

/-! ## Routing rules (`orchestrator/router/router_rules.py`) -/

/-- The caller's request map, restricted to the string-valued keys the rules
inspect. -/
abbrev Request := List (String × String)

/-- Embeds `request.get(key)`. -/
def requestGet (request : Request) (key : String) : Option String :=
  match request.find? (fun p => p.1 == key) with
  | some p => some p.2
  | none => none

/-- A routing rule `{"if": {...}, "use_model": ...}`; `use_model = ""` models
a missing or empty (falsy) `use_model` entry. -/
structure RoutingRule where
  cond : List (String × String)
  use_model : String
deriving Repr, DecidableEq

/-- Embeds `rule_matches`: an empty `"if"` map never matches; otherwise every
key/value pair must equal the request's entry. -/
def rule_matches (rule : RoutingRule) (request : Request) : Bool :=
  if rule.cond.isEmpty then false
  else rule.cond.all (fun kv => requestGet request kv.1 == some kv.2)

/-- Embeds `evaluate_rules`: the first matching rule's `use_model`, else `None`. -/
def evaluate_rules (rules : List RoutingRule) (request : Request) : Option String :=
  match rules.find? (fun r => rule_matches r request) with
  | some r => some r.use_model
  | none => none

/-! ## Router (`orchestrator/router/router.py`, `router_config.py`) -/

/-- Embeds `ModelBackendConfig` (timeout is wall-clock and does not affect the
value-level retry semantics; enabled gates execution). -/
structure ModelBackendConfig where
  name : String
  max_retries : Nat
  enabled : Bool
deriving Repr, DecidableEq

/-- Embeds `RouterConfig`. -/
structure RouterConfig where
  default_model : String
  models : List (String × ModelBackendConfig)
  routing_rules : List RoutingRule
deriving Repr, DecidableEq

/-- Embeds `RouterConfig.get_backend` (raises `KeyError`, modelled as `none`). -/
def RouterConfig.get_backend (config : RouterConfig) (name : String) :
    Option ModelBackendConfig :=
  match config.models.find? (fun p => p.1 == name) with
  | some p => some p.2
  | none => none

/-- Embeds `Router.route`: the first matching rule's model if truthy, else the
configured default (`if model: return model`). -/
def Router.route (config : RouterConfig) (request : Request) : String :=
  match evaluate_rules config.routing_rules request with
  | some m => if m == "" then config.default_model else m
  | none => config.default_model

/-- The telemetry events the router emits (`emit_trace` names). -/
inductive RouterEvent where
  | backendRetry (backend : String) (error : String)
  | noModelAvailable
  | routerError (error : String)
deriving Repr, DecidableEq

/-- The `RouterError` message raised when every attempt failed:
`f"Backend '{name}' failed after {max_retries} retries: {last_exc}"`. -/
def routerErrorMsg (name : String) (maxRetries : Nat) (lastExc : Option String) : String :=
  "Backend '" ++ name ++ "' failed after " ++ toString maxRetries ++ " retries: "
    ++ lastExc.getD "None"

/-- The loop body of `Router._run_backend`: each attempt either returns the
response (per-attempt `asyncio.wait_for` timeouts are among the failures the
`except Exception` clause catches, so an attempt's outcome is an `Except`);
on failure, emit `router.backend_retry` and continue.  Returns the result,
the emitted events in order, and the number of runner invocations. -/
def Router.runBackendLoop (name : String) (maxRetries : Nat)
    (runner : Nat → Except String BackendResult) :
    Nat → Nat → Option String → Except String BackendResult × List RouterEvent × Nat
  | _, 0, lastExc => (.error (routerErrorMsg name maxRetries lastExc), [], 0)
  | i, remaining + 1, _ =>
    match runner i with
    | .ok resp => (.ok resp, [], 1)
    | .error e =>
      let rest := Router.runBackendLoop name maxRetries runner (i + 1) remaining (some e)
      (rest.1, .backendRetry name e :: rest.2.1, rest.2.2 + 1)

/-- Embeds `Router._run_backend`: `for _ in range(max_retries + 1)` with
`last_exc = None` initially. -/
def Router.runBackend (cfg : ModelBackendConfig)
    (runner : Nat → Except String BackendResult) :
    Except String BackendResult × List RouterEvent × Nat :=
  Router.runBackendLoop cfg.name cfg.max_retries runner 0 (cfg.max_retries + 1) none

/-- Embeds `Router.execute`: route, resolve the backend (`KeyError` for unknown
names falls into the generic handler), check `enabled`
(`NoModelAvailable` otherwise), run with retries; terminal failures emit
`router.no_model_available` or `router.error` and re-raise. -/
def Router.execute (config : RouterConfig) (request : Request)
    (runner : Nat → Except String BackendResult) :
    Except String BackendResult × List RouterEvent :=
  let model := Router.route config request
  match config.get_backend model with
  | none =>
    let msg := "Unknown model backend: " ++ model
    (.error msg, [.routerError msg])
  | some cfg =>
    if !cfg.enabled then
      (.error ("Model '" ++ model ++ "' is disabled"), [.noModelAvailable])
    else
      let run := Router.runBackend cfg runner
      match run.1 with
      | .ok resp => (.ok resp, run.2.1)
      | .error e => (.error e, run.2.1 ++ [.routerError e])

/-! ## Event bus (`commons/events.py`) -/

/-- The `Event` model; `id` and `timestamp` are produced by the enclosing
runtime (uuid/clock) and are parameters here. -/
structure Event where
  id : String
  name : String
  timestamp : ℚ
  payload : List (String × String)
  metadata : List (String × String)
deriving Repr, DecidableEq

/-- A listener: an async callable that may raise. -/
abbrev Listener := Event → Except String Unit

/-- Embeds `EventBus._safe_invoke`: runs one listener, catching any exception;
the result records what was logged (`none` = clean completion). -/
def safeInvoke (l : Listener) (e : Event) : Option String :=
  match l e with
  | .ok _ => none
  | .error msg => some msg

/-- Embeds `self._listeners.get(event.name, [])`. -/
def lookupListeners (table : List (String × List Listener)) (name : String) :
    List Listener :=
  match table.find? (fun p => p.1 == name) with
  | some p => p.2
  | none => []

/-- Embeds `EventBus.broadcast`: dispatches the event to every registered listener
through `_safe_invoke` and gathers all completions (`asyncio.gather` with
`return_exceptions=True`) before returning.  The returned list has one entry
per registered listener: its logged error, if any. -/
def EventBus.broadcast (table : List (String × List Listener)) (e : Event) :
    List (Option String) :=
  (lookupListeners table e.name).map (fun l => safeInvoke l e)

/-- Embeds `EventBus.emit`: constructs the `Event` and broadcasts it, returning the
event (and, in this embedding, the completed invocation record). -/
def EventBus.emit (table : List (String × List Listener)) (id : String) (ts : ℚ)
    (name : String) (payload metadata : List (String × String)) :
    Event × List (Option String) :=
  let e : Event := ⟨id, name, ts, payload, metadata⟩
  (e, EventBus.broadcast table e)

/-! ## Concrete scenario data and event counters -/

/-- Scenario S2: each of the five default critics returns
`{score: 0.9, confidence: 0.9, violation: false}`. -/
def fiveCriticsS2 : Judgments :=
  [("rights", ⟨9/10, 9/10, false, "ok"⟩), ("risk", ⟨9/10, 9/10, false, "ok"⟩),
   ("fairness", ⟨9/10, 9/10, false, "ok"⟩), ("truth", ⟨9/10, 9/10, false, "ok"⟩),
   ("pragmatics", ⟨9/10, 9/10, false, "ok"⟩)]

/-- Recognizes a `router.backend_retry` emission. -/
def isBackendRetry : RouterEvent → Bool
  | .backendRetry _ _ => true
  | _ => false

/-- Recognizes a `router.error` emission. -/
def isRouterError : RouterEvent → Bool
  | .routerError _ => true
  | _ => false

/-- Recognizes a `router.no_model_available` emission. -/
def isNoModel : RouterEvent → Bool
  | .noModelAvailable => true
  | _ => false

/-- Number of emitted events satisfying `p`. -/
def countEvents (p : RouterEvent → Bool) (evs : List RouterEvent) : Nat :=
  (evs.filter p).length

/-! ## Helper lemmas -/

lemma foldl_min_le_init (l : List ℚ) (a : ℚ) : l.foldl min a ≤ a := by
  induction l generalizing a with
  | nil => simp
  | cons x xs ih => exact le_trans (ih (min a x)) (min_le_left a x)

lemma foldl_min_le_mem (l : List ℚ) (a : ℚ) (x : ℚ) (hx : x ∈ l) : l.foldl min a ≤ x := by
  induction l generalizing a with
  | nil => cases hx
  | cons y ys ih =>
    rcases List.mem_cons.mp hx with h | h
    · subst h
      exact le_trans (foldl_min_le_init ys (min a x)) (min_le_right a x)
    · exact ih (min a y) h

lemma foldl_min_mem (l : List ℚ) (a : ℚ) : l.foldl min a = a ∨ l.foldl min a ∈ l := by
  induction l generalizing a with
  | nil => left; rfl
  | cons y ys ih =>
    rcases ih (min a y) with h | h
    · rcases min_choice a y with hm | hm
      · left; rw [List.foldl_cons, h, hm]
      · right
        rw [List.foldl_cons, h, hm]
        exact List.mem_cons_self y ys
    · right; exact List.mem_cons_of_mem y h

lemma compute_cons_some (threshold : ℚ) (p : String × Judgment) (ps : Judgments) :
    ∃ out, UncertaintyEngine.compute threshold (p :: ps) = some out := by
  simp [UncertaintyEngine.compute]

lemma lexViolations_ne_nil (critics : Judgments)
    (h : critics.any (fun p => RIGHTS_CRITICS.contains p.1 && p.2.violation) = true) :
    lexViolations critics ≠ [] := by
  intro hnil
  rcases List.any_eq_true.mp h with ⟨p, hp, hpred⟩
  have : p ∈ critics.filter (fun p => RIGHTS_CRITICS.contains p.1 && p.2.violation) :=
    List.mem_filter.mpr ⟨hp, hpred⟩
  have hmap := List.mem_map_of_mem (fun p => p.1) this
  rw [show ((critics.filter (fun p => RIGHTS_CRITICS.contains p.1 && p.2.violation)).map
      (fun p => p.1)) = lexViolations critics from rfl, hnil] at hmap
  cases hmap

lemma fuse_of_lex (weights : List (String × ℚ)) (critics : Judgments)
    (h : lexViolations critics ≠ []) :
    CriticFusion.fuse weights critics = ⟨0, lexViolations critics, true, critics⟩ := by
  unfold CriticFusion.fuse
  rw [if_neg]
  simp [List.isEmpty_iff, h]

/-! ## Claim theorems -/

/-- C1.  Lexicographic precedence: whenever some critic named in
`RIGHTS_CRITICS` has `violation = true`, `CriticFusion.fuse` returns
`lex_block = true`, `aggregate_score = 0` and a non-empty violations list;
and when the mode has `enforce_lex = true`, `ConsensusFusion.decide`
followed by the mode gate (`HybridCore._apply_mode`) yields `action =
"reject"` with reason `"rights_violation"`, regardless of the other
critics' scores. -/
theorem C1_lex_precedence (weights : List (String × ℚ)) (threshold : ℚ)
    (precedentFetch : Option (List ℚ → List String)) (vector : Option (List ℚ))
    (mode : HybridModeConfig) (critics : Judgments)
    (hviol : critics.any (fun p => RIGHTS_CRITICS.contains p.1 && p.2.violation) = true) :
    (CriticFusion.fuse weights critics).lex_block = true ∧
    (CriticFusion.fuse weights critics).aggregate_score = 0 ∧
    (CriticFusion.fuse weights critics).violations ≠ [] ∧
    (mode.enforce_lex = true →
      ∃ d, ConsensusFusion.decide weights threshold precedentFetch critics vector = some d ∧
        d.action = "reject" ∧
        HybridCore.applyMode mode d =
          .ok (.wrapped "reject" (some "rights_violation") d)) := by
  have hlv := lexViolations_ne_nil critics hviol
  have hfuse := fuse_of_lex weights critics hlv
  refine ⟨by rw [hfuse], by rw [hfuse], by rw [hfuse]; exact hlv, ?_⟩
  intro henf
  refine ⟨⟨"reject", 1, 0, true, "Rights-critical violation detected.", []⟩, ?_, rfl, ?_⟩
  · unfold ConsensusFusion.decide
    rw [hfuse]
    rfl
  · unfold HybridCore.applyMode
    simp [henf]

/-- Characterization of `UncertaintyEngine.compute` on a non-empty map. -/
lemma compute_cons_eq (threshold : ℚ) (p : String × Judgment) (ps : Judgments) :
    UncertaintyEngine.compute threshold (p :: ps) =
    some ⟨min 1 ((if 1 < (p :: ps).length then
            pvariance ((p :: ps).map (fun c => c.2.score)) else 0) * (5/2)
          + (if (ps.map (fun c => c.2.confidence)).foldl min p.2.confidence < 3/10
              then (3/10 : ℚ) else 0)),
        decide (threshold ≤ min 1 ((if 1 < (p :: ps).length then
            pvariance ((p :: ps).map (fun c => c.2.score)) else 0) * (5/2)
          + (if (ps.map (fun c => c.2.confidence)).foldl min p.2.confidence < 3/10
              then (3/10 : ℚ) else 0))),
        (if 1 < (p :: ps).length then
            pvariance ((p :: ps).map (fun c => c.2.score)) else 0),
        (ps.map (fun c => c.2.confidence)).foldl min p.2.confidence⟩ := by
  simp [UncertaintyEngine.compute, List.length_map]

/-- Witness for C1 at a concrete input: a single rights critic reporting a
violation under the balanced mode. -/
theorem C1_lex_precedence_witness :
    (([("rights", (⟨0, 9/10, true, "viol"⟩ : Judgment))] : Judgments).any
        (fun p => RIGHTS_CRITICS.contains p.1 && p.2.violation) = true) ∧
    ((CriticFusion.fuse DEFAULT_WEIGHTS [("rights", ⟨0, 9/10, true, "viol"⟩)]).lex_block = true ∧
     (CriticFusion.fuse DEFAULT_WEIGHTS [("rights", ⟨0, 9/10, true, "viol"⟩)]).aggregate_score = 0 ∧
     (CriticFusion.fuse DEFAULT_WEIGHTS [("rights", ⟨0, 9/10, true, "viol"⟩)]).violations ≠ [] ∧
     (HybridMode.BALANCED.enforce_lex = true →
       ∃ d, ConsensusFusion.decide DEFAULT_WEIGHTS (7/20) none
              [("rights", ⟨0, 9/10, true, "viol"⟩)] none = some d ∧
         d.action = "reject" ∧
         HybridCore.applyMode HybridMode.BALANCED d =
           .ok (.wrapped "reject" (some "rights_violation") d))) := by
  have h : (([("rights", (⟨0, 9/10, true, "viol"⟩ : Judgment))] : Judgments).any
      (fun p => RIGHTS_CRITICS.contains p.1 && p.2.violation) = true) := by decide
  exact ⟨h, C1_lex_precedence DEFAULT_WEIGHTS (7/20) none none HybridMode.BALANCED _ h⟩

/-- C2.  Uncertainty computation: on a non-empty judgments map,
`UncertaintyEngine.compute` returns `uncertainty = min(1, 2.5·dispersion +
low_conf_penalty)` where `dispersion` is the population variance of the
scores when there are at least two and `0` otherwise, and the penalty is
`0.3` exactly when the minimum confidence is below `0.3`; `escalate` is true
iff `uncertainty ≥ threshold`. -/
theorem C2_uncertainty_computation (threshold : ℚ) (critics : Judgments)
    (h : critics ≠ []) :
    ∃ out, UncertaintyEngine.compute threshold critics = some out ∧
      out.dispersion =
        (if 1 < critics.length then pvariance (critics.map (fun c => c.2.score)) else 0) ∧
      out.min_confidence ∈ critics.map (fun c => c.2.confidence) ∧
      (∀ c ∈ critics.map (fun c => c.2.confidence), out.min_confidence ≤ c) ∧
      out.uncertainty =
        min 1 ((5/2) * out.dispersion +
          (if out.min_confidence < 3/10 then (3/10 : ℚ) else 0)) ∧
      (out.escalate = true ↔ threshold ≤ out.uncertainty) := by
  match critics with
  | [] => exact absurd rfl h
  | p :: ps =>
    refine ⟨_, compute_cons_eq threshold p ps, rfl, ?_, ?_, ?_, ?_⟩
    · rcases foldl_min_mem (ps.map (fun c => c.2.confidence)) p.2.confidence with hm | hm
      · rw [List.map_cons, hm]
        exact List.mem_cons_self _ _
      · rw [List.map_cons]
        exact List.mem_cons_of_mem _ hm
    · intro c hc
      rw [List.map_cons] at hc
      rcases List.mem_cons.mp hc with rfl | hc
      · exact foldl_min_le_init _ _
      · exact foldl_min_le_mem _ _ _ hc
    · ring_nf
    · simp only [decide_eq_true_eq]

/-- Witness for C2: a single high-confidence judgment. -/
theorem C2_uncertainty_computation_witness :
    (([("rights", (⟨9/10, 9/10, false, "ok"⟩ : Judgment))] : Judgments) ≠ []) ∧
    (∃ out, UncertaintyEngine.compute (7/20) [("rights", ⟨9/10, 9/10, false, "ok"⟩)] = some out ∧
      out.dispersion =
        (if 1 < ([("rights", (⟨9/10, 9/10, false, "ok"⟩ : Judgment))] : Judgments).length then
          pvariance (([("rights", (⟨9/10, 9/10, false, "ok"⟩ : Judgment))] : Judgments).map
            (fun c => c.2.score)) else 0) ∧
      out.min_confidence ∈ (([("rights", (⟨9/10, 9/10, false, "ok"⟩ : Judgment))] : Judgments).map
        (fun c => c.2.confidence)) ∧
      (∀ c ∈ (([("rights", (⟨9/10, 9/10, false, "ok"⟩ : Judgment))] : Judgments).map
        (fun c => c.2.confidence)), out.min_confidence ≤ c) ∧
      out.uncertainty =
        min 1 ((5/2) * out.dispersion +
          (if out.min_confidence < 3/10 then (3/10 : ℚ) else 0)) ∧
      (out.escalate = true ↔ (7/20 : ℚ) ≤ out.uncertainty)) := by
  have h : (([("rights", (⟨9/10, 9/10, false, "ok"⟩ : Judgment))] : Judgments) ≠ []) := by
    decide
  exact ⟨h, C2_uncertainty_computation (7/20) _ h⟩

/-- C10.  Empty-judgments partiality: on an empty judgments map the
uncertainty engine fails (`min` of an empty sequence), so the consensus
fusion fails as well rather than producing a decision; with at least one
judgment present the fusion always produces a decision. -/
theorem C10_empty_judgments :
    (∀ threshold : ℚ, UncertaintyEngine.compute threshold [] = none) ∧
    (∀ (weights : List (String × ℚ)) (threshold : ℚ)
        (precedentFetch : Option (List ℚ → List String)) (vector : Option (List ℚ)),
      ConsensusFusion.decide weights threshold precedentFetch [] vector = none) ∧
    (∀ (weights : List (String × ℚ)) (threshold : ℚ)
        (precedentFetch : Option (List ℚ → List String)) (vector : Option (List ℚ))
        (critics : Judgments), critics ≠ [] →
      ∃ d, ConsensusFusion.decide weights threshold precedentFetch critics vector = some d) := by
  refine ⟨fun threshold => rfl, fun weights threshold precedentFetch vector => ?_, ?_⟩
  · simp [ConsensusFusion.decide, CriticFusion.fuse, lexViolations, weightedTotal,
      UncertaintyEngine.compute]
  · intro weights threshold precedentFetch vector critics hne
    match critics with
    | [] => exact absurd rfl hne
    | p :: ps =>
      unfold ConsensusFusion.decide
      by_cases hlex : (CriticFusion.fuse weights (p :: ps)).lex_block
      · simp [hlex]
      · simp only [hlex, if_false, Bool.false_eq_true]
        rcases compute_cons_some threshold p ps with ⟨out, hout⟩
        rw [hout]
        exact ⟨_, rfl⟩

/-- Witness for C10: the third conjunct applied to a one-judgment map. -/
theorem C10_empty_judgments_witness :
    (UncertaintyEngine.compute (7/20) [] = none) ∧
    (ConsensusFusion.decide DEFAULT_WEIGHTS (7/20) none [] none = none) ∧
    (([("rights", (⟨9/10, 9/10, false, "ok"⟩ : Judgment))] : Judgments) ≠ []) ∧
    (∃ d, ConsensusFusion.decide DEFAULT_WEIGHTS (7/20) none
        [("rights", ⟨9/10, 9/10, false, "ok"⟩)] none = some d) := by
  have h : (([("rights", (⟨9/10, 9/10, false, "ok"⟩ : Judgment))] : Judgments) ≠ []) := by
    decide
  exact ⟨C10_empty_judgments.1 (7/20),
    C10_empty_judgments.2.1 DEFAULT_WEIGHTS (7/20) none none, h,
    C10_empty_judgments.2.2 DEFAULT_WEIGHTS (7/20) none none _ h⟩

/-- C5 counterexample.  In scenario S2 (all five default critics return
score 0.9, confidence 0.9, no violation) the fused decision's confidence is
0.9, not approximately 0.675 as claimed: the default weights sum to 1, so
the aggregate is 0·0.9 + 4·0.25·0.9 = 0.9. -/
theorem C5_counterexample :
    (ConsensusFusion.decide DEFAULT_WEIGHTS (7/20) none fiveCriticsS2 none).map
      Decision.action = some "proceed" ∧
    (ConsensusFusion.decide DEFAULT_WEIGHTS (7/20) none fiveCriticsS2 none).map
      Decision.confidence = some (9/10) ∧
    ((9 : ℚ)/10 ≠ 27/40) ∧ ¬ (|(9 : ℚ)/10 - 27/40| ≤ 1/10) := by
  have hdec : ConsensusFusion.decide DEFAULT_WEIGHTS (7/20) none fiveCriticsS2 none =
      some ⟨"proceed", 9/10, 0, false,
        "Decision derived from Eleanor's multi-critic fusion logic.", []⟩ := by
    simp only [ConsensusFusion.decide, CriticFusion.fuse, lexViolations, fiveCriticsS2,
      weightedTotal, RIGHTS_CRITICS, UncertaintyEngine.compute, pvariance]
    norm_num [show weightsGet DEFAULT_WEIGHTS "rights" = 0 from rfl,
      show weightsGet DEFAULT_WEIGHTS "risk" = 1/4 from rfl,
      show weightsGet DEFAULT_WEIGHTS "fairness" = 1/4 from rfl,
      show weightsGet DEFAULT_WEIGHTS "truth" = 1/4 from rfl,
      show weightsGet DEFAULT_WEIGHTS "pragmatics" = 1/4 from rfl]
  refine ⟨by rw [hdec]; rfl, by rw [hdec]; rfl, by norm_num,
    by rw [abs_of_nonneg (by norm_num)]; norm_num⟩

/-- C5 (amended).  End-to-end scenario S2: when each of the five default
critics returns score 0.9, confidence 0.9, violation false, the fused
decision has action "proceed", confidence 0.9 under the default weights,
uncertainty 0, and no escalation. -/
theorem C5_scenario_all_agree :
    ConsensusFusion.decide DEFAULT_WEIGHTS (7/20) none fiveCriticsS2 none =
      some ⟨"proceed", 9/10, 0, false,
        "Decision derived from Eleanor's multi-critic fusion logic.", []⟩ := by
  simp only [ConsensusFusion.decide, CriticFusion.fuse, lexViolations, fiveCriticsS2,
    weightedTotal, RIGHTS_CRITICS, UncertaintyEngine.compute, pvariance]
  norm_num [show weightsGet DEFAULT_WEIGHTS "rights" = 0 from rfl,
    show weightsGet DEFAULT_WEIGHTS "risk" = 1/4 from rfl,
    show weightsGet DEFAULT_WEIGHTS "fairness" = 1/4 from rfl,
    show weightsGet DEFAULT_WEIGHTS "truth" = 1/4 from rfl,
    show weightsGet DEFAULT_WEIGHTS "pragmatics" = 1/4 from rfl]

/-- C3.  Runtime never raises: `EleanorRuntime.decide` total-functionally
maps every outcome of the awaited deliberation to a decision envelope whose
`action` field is defined; an `EscalationRequired` unwinding from the hybrid
core yields `action = "escalate"` with the reason and request id, any other
failure (the decision timeout included) yields `action = "error"` with the
message and request id. -/
theorem C3_runtime_never_raises (reqId : String) (timedOut : Bool)
    (delib : Except HybridError ModeOutput) :
    ((∃ r, EleanorRuntime.decide reqId timedOut delib = .result r) ∨
     (∃ reason, EleanorRuntime.decide reqId timedOut delib = .escalate reason reqId ∧
        (EleanorRuntime.decide reqId timedOut delib).action = "escalate") ∨
     (∃ msg, EleanorRuntime.decide reqId timedOut delib = .error msg reqId ∧
        (EleanorRuntime.decide reqId timedOut delib).action = "error")) ∧
    (∀ msg, timedOut = false → delib = .error (.escalationRequired msg) →
      EleanorRuntime.decide reqId timedOut delib = .escalate msg reqId) ∧
    (∀ msg, timedOut = false → delib = .error (.hybridCoreError msg) →
      EleanorRuntime.decide reqId timedOut delib = .error msg reqId) ∧
    (timedOut = true →
      EleanorRuntime.decide reqId timedOut delib = .error "TimeoutError" reqId) := by
  cases timedOut with
  | true =>
    exact ⟨Or.inr (Or.inr ⟨"TimeoutError", rfl, rfl⟩),
      fun msg h _ => absurd h (by decide),
      fun msg h _ => absurd h (by decide),
      fun _ => rfl⟩
  | false =>
    cases delib with
    | ok out =>
      exact ⟨Or.inl ⟨out, rfl⟩,
        fun msg _ h => Except.noConfusion h,
        fun msg _ h => Except.noConfusion h,
        fun h => absurd h (by decide)⟩
    | error e =>
      cases e with
      | escalationRequired msg =>
        refine ⟨Or.inr (Or.inl ⟨msg, rfl, rfl⟩), ?_, ?_, fun h => absurd h (by decide)⟩
        · intro msg2 _ h
          injection h with h1
          injection h1 with h2
          subst h2
          rfl
        · intro msg2 _ h
          injection h with h1
          exact HybridError.noConfusion h1
      | hybridCoreError msg =>
        refine ⟨Or.inr (Or.inr ⟨msg, rfl, rfl⟩), ?_, ?_, fun h => absurd h (by decide)⟩
        · intro msg2 _ h
          injection h with h1
          exact HybridError.noConfusion h1
        · intro msg2 _ h
          injection h with h1
          injection h1 with h2
          subst h2
          rfl

/-- Witness for C3: the deliberation raised `EscalationRequired`. -/
theorem C3_runtime_never_raises_witness :
    ((false : Bool) = false) ∧
    ((Except.error (.escalationRequired "Uncertainty threshold exceeded.") :
        Except HybridError ModeOutput) =
      .error (.escalationRequired "Uncertainty threshold exceeded.")) ∧
    EleanorRuntime.decide "req-1" false
        (.error (.escalationRequired "Uncertainty threshold exceeded.")) =
      .escalate "Uncertainty threshold exceeded." "req-1" ∧
    (EleanorRuntime.decide "req-1" false
        (.error (.escalationRequired "Uncertainty threshold exceeded."))).action =
      "escalate" := by
  have h := C3_runtime_never_raises "req-1" false
    (.error (.escalationRequired "Uncertainty threshold exceeded."))
  exact ⟨rfl, rfl, h.2.1 "Uncertainty threshold exceeded." rfl rfl, by
    rw [h.2.1 "Uncertainty threshold exceeded." rfl rfl]; rfl⟩

/-- C8.  Critic failure isolation: in the fan-out, a critic whose evaluate
raised contributes exactly the zero-filled judgment with rationale
`"Critic error: ..."`, a succeeding critic contributes exactly its own
judgment, and restricting the fan-out to any subset of critics yields
exactly the corresponding restriction of the results (each critic's
contribution is independent of the others); the fan-out is total. -/
theorem C8_critic_isolation (evals : List (String × Except String Judgment)) :
    (evaluateCritics evals).length = evals.length ∧
    (∀ (i : Nat) (name : String) (e : String), evals.get? i = some (name, .error e) →
      (evaluateCritics evals).get? i = some (name, zeroJudgment e)) ∧
    (∀ (i : Nat) (name : String) (j : Judgment), evals.get? i = some (name, .ok j) →
      (evaluateCritics evals).get? i = some (name, j)) ∧
    (∀ p : String → Bool,
      evaluateCritics (evals.filter (fun x => p x.1)) =
        (evaluateCritics evals).filter (fun x => p x.1)) := by
  refine ⟨List.length_map _ _, ?_, ?_, ?_⟩
  · intro i name e h
    rw [evaluateCritics, List.get?_map, h]
    rfl
  · intro i name j h
    rw [evaluateCritics, List.get?_map, h]
    rfl
  · intro p
    rw [evaluateCritics, evaluateCritics, List.filter_map]
    rfl

/-- Witness for C8: a failing critic among two. -/
theorem C8_critic_isolation_witness :
    (([("rights", Except.ok (⟨9/10, 9/10, false, "ok"⟩ : Judgment)),
       ("risk", Except.error "boom")] :
        List (String × Except String Judgment)).get? 1 =
      some ("risk", .error "boom")) ∧
    (evaluateCritics
        [("rights", .ok ⟨9/10, 9/10, false, "ok"⟩), ("risk", .error "boom")]).get? 1 =
      some ("risk", zeroJudgment "boom") := by
  have h := C8_critic_isolation
    [("rights", .ok ⟨9/10, 9/10, false, "ok"⟩), ("risk", .error "boom")]
  exact ⟨rfl, h.2.1 1 "risk" "boom" rfl⟩

/-- C9.  Event-bus listener isolation: `emit` constructs and returns the
event; `broadcast` produces one completed invocation per registered listener
for the event's name, each invocation being `_safe_invoke` of that listener
alone (so no listener's exception prevents another's invocation, and none
propagates: a raising listener's error is merely logged). -/
theorem C9_listener_isolation (table : List (String × List Listener)) (id : String)
    (ts : ℚ) (name : String) (payload metadata : List (String × String)) :
    (EventBus.emit table id ts name payload metadata).1 =
      ⟨id, name, ts, payload, metadata⟩ ∧
    (EventBus.emit table id ts name payload metadata).2.length =
      (lookupListeners table name).length ∧
    (∀ i : Nat, (EventBus.emit table id ts name payload metadata).2.get? i =
      ((lookupListeners table name).get? i).map
        (fun l => safeInvoke l ⟨id, name, ts, payload, metadata⟩)) ∧
    (∀ (l : Listener) (e : Event) (msg : String),
      l e = .error msg → safeInvoke l e = some msg) := by
  refine ⟨rfl, List.length_map _ _, fun i => List.get?_map _ _ _, ?_⟩
  intro l e msg h
  rw [safeInvoke, h]

/-- Witness for C9: two listeners, the first of which raises. -/
theorem C9_listener_isolation_witness :
    ((fun _ => Except.error "boom" : Listener) ⟨"id1", "x", 0, [], []⟩ =
      .error "boom") ∧
    safeInvoke (fun _ => Except.error "boom") ⟨"id1", "x", 0, [], []⟩ = some "boom" ∧
    (EventBus.emit [("x", [fun _ => Except.error "boom", fun _ => Except.ok ()])]
        "id1" 0 "x" [] []).1 = ⟨"id1", "x", 0, [], []⟩ ∧
    (EventBus.emit [("x", [fun _ => Except.error "boom", fun _ => Except.ok ()])]
        "id1" 0 "x" [] []).2 = [some "boom", none] := by
  have h := C9_listener_isolation
    [("x", [fun _ => Except.error "boom", fun _ => Except.ok ()])] "id1" 0 "x" [] []
  exact ⟨rfl, h.2.2.2 (fun _ => Except.error "boom") ⟨"id1", "x", 0, [], []⟩ "boom" rfl,
    h.1, rfl⟩

/-! ## Router retry lemmas -/

lemma runBackendLoop_zero (name : String) (mr : Nat)
    (runner : Nat → Except String BackendResult) (i : Nat) (last : Option String) :
    Router.runBackendLoop name mr runner i 0 last =
      (.error (routerErrorMsg name mr last), [], 0) := rfl

lemma runBackendLoop_succ_ok (name : String) (mr : Nat)
    (runner : Nat → Except String BackendResult) (i remaining : Nat)
    (last : Option String) (resp : BackendResult) (h : runner i = .ok resp) :
    Router.runBackendLoop name mr runner i (remaining + 1) last = (.ok resp, [], 1) := by
  simp only [Router.runBackendLoop, h]

lemma runBackendLoop_succ_error (name : String) (mr : Nat)
    (runner : Nat → Except String BackendResult) (i remaining : Nat)
    (last : Option String) (e : String) (h : runner i = .error e) :
    Router.runBackendLoop name mr runner i (remaining + 1) last =
      ((Router.runBackendLoop name mr runner (i + 1) remaining (some e)).1,
       RouterEvent.backendRetry name e ::
         (Router.runBackendLoop name mr runner (i + 1) remaining (some e)).2.1,
       (Router.runBackendLoop name mr runner (i + 1) remaining (some e)).2.2 + 1) := by
  simp only [Router.runBackendLoop, h]

lemma runBackendLoop_invocations_le (name : String) (mr : Nat)
    (runner : Nat → Except String BackendResult) :
    ∀ (remaining i : Nat) (last : Option String),
      (Router.runBackendLoop name mr runner i remaining last).2.2 ≤ remaining := by
  intro remaining
  induction remaining with
  | zero => intro i last; simp [runBackendLoop_zero]
  | succ r ih =>
    intro i last
    cases h : runner i with
    | ok resp => simp [runBackendLoop_succ_ok name mr runner i r last resp h]
    | error e =>
      rw [runBackendLoop_succ_error name mr runner i r last e h]
      exact Nat.succ_le_succ (ih (i + 1) (some e))

lemma runBackendLoop_firstSuccess (name : String) (mr : Nat)
    (runner : Nat → Except String BackendResult) (err : Nat → String)
    (resp : BackendResult) :
    ∀ (K i remaining : Nat) (last : Option String),
      K < remaining →
      (∀ j, j < K → runner (i + j) = .error (err (i + j))) →
      runner (i + K) = .ok resp →
      (Router.runBackendLoop name mr runner i remaining last).1 = .ok resp ∧
      (Router.runBackendLoop name mr runner i remaining last).2.1 =
        (List.range K).map (fun j => RouterEvent.backendRetry name (err (i + j))) ∧
      (Router.runBackendLoop name mr runner i remaining last).2.2 = K + 1 := by
  intro K
  induction K with
  | zero =>
    intro i remaining last hK hfail hok
    obtain ⟨r, rfl⟩ : ∃ r, remaining = r + 1 := ⟨remaining - 1, by omega⟩
    rw [Nat.add_zero] at hok
    rw [runBackendLoop_succ_ok name mr runner i r last resp hok]
    exact ⟨rfl, rfl, rfl⟩
  | succ k ih =>
    intro i remaining last hK hfail hok
    obtain ⟨r, rfl⟩ : ∃ r, remaining = r + 1 := ⟨remaining - 1, by omega⟩
    have h0 : runner i = .error (err i) := by
      have := hfail 0 (Nat.succ_pos k)
      simpa using this
    have hrec := ih (i + 1) r (some (err i)) (by omega)
      (fun j hj => by
        have := hfail (j + 1) (by omega)
        simpa [show i + (j + 1) = i + 1 + j from by omega] using this)
      (by
        have hik : i + 1 + k = i + (k + 1) := by omega
        rw [hik]
        exact hok)
    rw [runBackendLoop_succ_error name mr runner i r last (err i) h0]
    refine ⟨hrec.1, ?_, by rw [show ((_ : Except String BackendResult × List RouterEvent × Nat)).2.2 = _ from rfl]; rw [hrec.2.2]⟩
    show RouterEvent.backendRetry name (err i) ::
        (Router.runBackendLoop name mr runner (i + 1) r (some (err i))).2.1 = _
    rw [hrec.2.1, List.range_succ_eq_map, List.map_cons, List.map_map]
    have hfun : ((fun j => RouterEvent.backendRetry name (err (i + j))) ∘ Nat.succ) =
        (fun j => RouterEvent.backendRetry name (err (i + 1 + j))) := by
      funext j
      simp only [Function.comp]
      rw [show i + Nat.succ j = i + 1 + j from by omega]
    rw [hfun]
    rfl

lemma runBackendLoop_allFail (name : String) (mr : Nat)
    (runner : Nat → Except String BackendResult) (err : Nat → String) :
    ∀ (r i : Nat) (last : Option String),
      (∀ j, j < r + 1 → runner (i + j) = .error (err (i + j))) →
      (Router.runBackendLoop name mr runner i (r + 1) last).1 =
        .error (routerErrorMsg name mr (some (err (i + r)))) ∧
      (Router.runBackendLoop name mr runner i (r + 1) last).2.1 =
        (List.range (r + 1)).map (fun j => RouterEvent.backendRetry name (err (i + j))) ∧
      (Router.runBackendLoop name mr runner i (r + 1) last).2.2 = r + 1 := by
  intro r
  induction r with
  | zero =>
    intro i last hfail
    have h0 : runner i = .error (err i) := by simpa using hfail 0 Nat.one_pos
    rw [runBackendLoop_succ_error name mr runner i 0 last (err i) h0]
    refine ⟨rfl, ?_, rfl⟩
    simp [List.range_succ, runBackendLoop_zero]
  | succ k ih =>
    intro i last hfail
    have h0 : runner i = .error (err i) := by simpa using hfail 0 (Nat.succ_pos _)
    have hrec := ih (i + 1) (some (err i))
      (fun j hj => by
        have := hfail (j + 1) (by omega)
        simpa [show i + (j + 1) = i + 1 + j from by omega] using this)
    rw [runBackendLoop_succ_error name mr runner i (k + 1) last (err i) h0]
    refine ⟨?_, ?_, ?_⟩
    · show (Router.runBackendLoop name mr runner (i + 1) (k + 1) (some (err i))).1 = _
      rw [hrec.1, show i + 1 + k = i + (k + 1) from by omega]
    · show RouterEvent.backendRetry name (err i) ::
          (Router.runBackendLoop name mr runner (i + 1) (k + 1) (some (err i))).2.1 = _
      rw [hrec.2.1,
        show List.range (k + 1 + 1) = 0 :: (List.range (k + 1)).map Nat.succ from
          List.range_succ_eq_map (k + 1),
        List.map_cons, List.map_map]
      have hfun : ((fun j => RouterEvent.backendRetry name (err (i + j))) ∘ Nat.succ) =
          (fun j => RouterEvent.backendRetry name (err (i + 1 + j))) := by
        funext j
        simp only [Function.comp]
        rw [show i + Nat.succ j = i + 1 + j from by omega]
      rw [hfun]
      rfl
    · show (Router.runBackendLoop name mr runner (i + 1) (k + 1) (some (err i))).2.2 + 1 = _
      rw [hrec.2.2]

lemma runBackend_firstSuccess (cfg : ModelBackendConfig)
    (runner : Nat → Except String BackendResult) (err : Nat → String)
    (resp : BackendResult) (K : Nat) (hK : K < cfg.max_retries + 1)
    (hfail : ∀ j, j < K → runner j = .error (err j)) (hok : runner K = .ok resp) :
    (Router.runBackend cfg runner).1 = .ok resp ∧
    (Router.runBackend cfg runner).2.1 =
      (List.range K).map (fun j => RouterEvent.backendRetry cfg.name (err j)) ∧
    (Router.runBackend cfg runner).2.2 = K + 1 := by
  have h := runBackendLoop_firstSuccess cfg.name cfg.max_retries runner err resp K 0
    (cfg.max_retries + 1) none hK (fun j hj => by simpa using hfail j hj)
    (by simpa using hok)
  simp only [Nat.zero_add] at h
  exact h

lemma runBackend_allFail (cfg : ModelBackendConfig)
    (runner : Nat → Except String BackendResult) (err : Nat → String)
    (hfail : ∀ j, j < cfg.max_retries + 1 → runner j = .error (err j)) :
    (Router.runBackend cfg runner).1 =
      .error (routerErrorMsg cfg.name cfg.max_retries (some (err cfg.max_retries))) ∧
    (Router.runBackend cfg runner).2.1 =
      (List.range (cfg.max_retries + 1)).map
        (fun j => RouterEvent.backendRetry cfg.name (err j)) ∧
    (Router.runBackend cfg runner).2.2 = cfg.max_retries + 1 := by
  have h := runBackendLoop_allFail cfg.name cfg.max_retries runner err
    cfg.max_retries 0 none (fun j hj => by simpa using hfail j hj)
  simp only [Nat.zero_add] at h
  exact h

lemma execute_of_ok (config : RouterConfig) (request : Request)
    (runner : Nat → Except String BackendResult) (cfg : ModelBackendConfig)
    (resp : BackendResult)
    (hres : config.get_backend (Router.route config request) = some cfg)
    (hen : cfg.enabled = true) (h1 : (Router.runBackend cfg runner).1 = .ok resp) :
    Router.execute config request runner = (.ok resp, (Router.runBackend cfg runner).2.1) := by
  unfold Router.execute
  simp [hres, hen, h1]

lemma execute_of_error (config : RouterConfig) (request : Request)
    (runner : Nat → Except String BackendResult) (cfg : ModelBackendConfig) (e : String)
    (hres : config.get_backend (Router.route config request) = some cfg)
    (hen : cfg.enabled = true) (h1 : (Router.runBackend cfg runner).1 = .error e) :
    Router.execute config request runner =
      (.error e, (Router.runBackend cfg runner).2.1 ++ [RouterEvent.routerError e]) := by
  unfold Router.execute
  simp [hres, hen, h1]

lemma execute_of_disabled (config : RouterConfig) (request : Request)
    (runner : Nat → Except String BackendResult) (cfg : ModelBackendConfig)
    (hres : config.get_backend (Router.route config request) = some cfg)
    (hdis : cfg.enabled = false) :
    (Router.execute config request runner).2 = [RouterEvent.noModelAvailable] := by
  unfold Router.execute
  simp [hres, hdis]

lemma count_map_range_retry (name : String) (err : Nat → String) (n : Nat) :
    countEvents isBackendRetry
      ((List.range n).map (fun j => RouterEvent.backendRetry name (err j))) = n := by
  rw [countEvents, List.filter_map]
  have : (isBackendRetry ∘ fun j => RouterEvent.backendRetry name (err j)) =
      fun _ => true := by
    funext j
    rfl
  rw [this, List.filter_true, List.length_map, List.length_range]

lemma filter_map_range_retry_eq_nil (p : RouterEvent → Bool)
    (hp : ∀ b e, p (RouterEvent.backendRetry b e) = false)
    (name : String) (err : Nat → String) (n : Nat) :
    ((List.range n).map (fun j => RouterEvent.backendRetry name (err j))).filter p = [] := by
  rw [List.filter_map]
  have : (p ∘ fun j => RouterEvent.backendRetry name (err j)) = fun _ => false := by
    funext j
    exact hp name (err j)
  rw [this, List.filter_false, List.map_nil]

/-- C4.  Router retry semantics: the backend loop invokes the runner at most
`max_retries + 1` times; a runner failing `K < max_retries + 1` times and
then succeeding makes `execute` return the successful response after exactly
`K + 1` invocations; a runner failing on all `max_retries + 1` attempts makes
`execute` surface the `RouterError` whose message carries the last underlying
cause.  Per-attempt timeouts are among the failures the loop's exception
handler catches (`asyncio.wait_for` inside the `try`). -/
theorem C4_router_retry_semantics (config : RouterConfig) (request : Request)
    (runner : Nat → Except String BackendResult) (err : Nat → String)
    (resp : BackendResult) (K : Nat) (cfg : ModelBackendConfig)
    (hres : config.get_backend (Router.route config request) = some cfg)
    (hen : cfg.enabled = true) :
    ((Router.runBackend cfg runner).2.2 ≤ cfg.max_retries + 1) ∧
    (K < cfg.max_retries + 1 →
      (∀ j, j < K → runner j = .error (err j)) → runner K = .ok resp →
      (Router.runBackend cfg runner).2.2 = K + 1 ∧
      (Router.execute config request runner).1 = .ok resp) ∧
    ((∀ j, j < cfg.max_retries + 1 → runner j = .error (err j)) →
      (Router.runBackend cfg runner).2.2 = cfg.max_retries + 1 ∧
      (Router.execute config request runner).1 =
        .error (routerErrorMsg cfg.name cfg.max_retries (some (err cfg.max_retries)))) := by
  refine ⟨runBackendLoop_invocations_le cfg.name cfg.max_retries runner _ 0 none, ?_, ?_⟩
  · intro hK hfail hok
    have h := runBackend_firstSuccess cfg runner err resp K hK hfail hok
    exact ⟨h.2.2, by rw [execute_of_ok config request runner cfg resp hres hen h.1]⟩
  · intro hfail
    have h := runBackend_allFail cfg runner err hfail
    exact ⟨h.2.2, by rw [execute_of_error config request runner cfg _ hres hen h.1]⟩

/-- Witness for C4: `max_retries = 1`, one failure then success (`K = 1`). -/
theorem C4_router_retry_semantics_witness :
    ((⟨"m", [("m", ⟨"m", 1, true⟩)], []⟩ : RouterConfig).get_backend
        (Router.route ⟨"m", [("m", ⟨"m", 1, true⟩)], []⟩ []) = some ⟨"m", 1, true⟩) ∧
    ((⟨"m", 1, true⟩ : ModelBackendConfig).enabled = true) ∧
    ((Router.runBackend ⟨"m", 1, true⟩
        (fun i => if i = 0 then .error "boom" else .ok ⟨none⟩)).2.2 ≤ 1 + 1) ∧
    ((Router.runBackend ⟨"m", 1, true⟩
        (fun i => if i = 0 then .error "boom" else .ok ⟨none⟩)).2.2 = 1 + 1 ∧
      (Router.execute ⟨"m", [("m", ⟨"m", 1, true⟩)], []⟩ []
        (fun i => if i = 0 then .error "boom" else .ok ⟨none⟩)).1 = .ok ⟨none⟩) := by
  have hres : (⟨"m", [("m", ⟨"m", 1, true⟩)], []⟩ : RouterConfig).get_backend
      (Router.route ⟨"m", [("m", ⟨"m", 1, true⟩)], []⟩ []) = some ⟨"m", 1, true⟩ := rfl
  have h := C4_router_retry_semantics ⟨"m", [("m", ⟨"m", 1, true⟩)], []⟩ []
    (fun i => if i = 0 then .error "boom" else .ok ⟨none⟩) (fun _ => "boom") ⟨none⟩ 1
    ⟨"m", 1, true⟩ hres rfl
  exact ⟨hres, rfl, h.1, h.2.1 (by decide)
    (fun j hj => by interval_cases j <;> rfl) rfl⟩

/-- C6 counterexample.  With `max_retries = 1` and a runner that always
fails, the claim predicts exactly `max_retries = 1` emission of
`router.backend_retry`, but `_run_backend` emits it on every failed attempt
including the terminal one, producing 2. -/
theorem C6_counterexample :
    countEvents isBackendRetry
      (Router.runBackend ⟨"m", 1, true⟩ (fun _ => .error "boom")).2.1 = 2 ∧
    (2 : Nat) ≠ 1 := by
  exact ⟨rfl, by omega⟩

/-- C6 (amended).  During router execution, `router.backend_retry` is
emitted exactly once per failed attempt, the terminal failure included: a
runner failing on all `max_retries + 1` attempts produces `max_retries + 1`
such emissions (followed by exactly one `router.error`), a runner succeeding
after `K` failures produces exactly `K` (and no terminal-failure events);
`router.no_model_available` and `router.error` are emitted only on terminal
failures. -/
theorem C6_retry_event_emission (config : RouterConfig) (request : Request)
    (runner : Nat → Except String BackendResult) (err : Nat → String)
    (resp : BackendResult) (K : Nat) (cfg : ModelBackendConfig)
    (hres : config.get_backend (Router.route config request) = some cfg) :
    (cfg.enabled = true →
      (∀ j, j < cfg.max_retries + 1 → runner j = .error (err j)) →
      countEvents isBackendRetry (Router.execute config request runner).2 =
        cfg.max_retries + 1 ∧
      countEvents isRouterError (Router.execute config request runner).2 = 1 ∧
      countEvents isNoModel (Router.execute config request runner).2 = 0) ∧
    (cfg.enabled = true → K < cfg.max_retries + 1 →
      (∀ j, j < K → runner j = .error (err j)) → runner K = .ok resp →
      countEvents isBackendRetry (Router.execute config request runner).2 = K ∧
      countEvents isRouterError (Router.execute config request runner).2 = 0 ∧
      countEvents isNoModel (Router.execute config request runner).2 = 0) ∧
    (cfg.enabled = false →
      (Router.execute config request runner).2 = [.noModelAvailable]) := by
  refine ⟨?_, ?_, ?_⟩
  · intro hen hfail
    have h := runBackend_allFail cfg runner err hfail
    have hexec : (Router.execute config request runner).2 =
        ((List.range (cfg.max_retries + 1)).map
          (fun j => RouterEvent.backendRetry cfg.name (err j))) ++
        [RouterEvent.routerError
          (routerErrorMsg cfg.name cfg.max_retries (some (err cfg.max_retries)))] := by
      rw [execute_of_error config request runner cfg _ hres hen h.1, h.2.1]
    rw [hexec]
    refine ⟨?_, ?_, ?_⟩
    · rw [countEvents, List.filter_append]
      have h1 := count_map_range_retry cfg.name err (cfg.max_retries + 1)
      rw [countEvents] at h1
      rw [List.length_append, h1]
      rfl
    · rw [countEvents, List.filter_append,
        filter_map_range_retry_eq_nil isRouterError (fun _ _ => rfl)]
      rfl
    · rw [countEvents, List.filter_append,
        filter_map_range_retry_eq_nil isNoModel (fun _ _ => rfl)]
      rfl
  · intro hen hK hfail hok
    have h := runBackend_firstSuccess cfg runner err resp K hK hfail hok
    have hexec : (Router.execute config request runner).2 =
        (List.range K).map (fun j => RouterEvent.backendRetry cfg.name (err j)) := by
      rw [execute_of_ok config request runner cfg resp hres hen h.1, h.2.1]
    rw [hexec]
    exact ⟨count_map_range_retry cfg.name err K,
      by rw [countEvents, filter_map_range_retry_eq_nil isRouterError (fun _ _ => rfl)]; rfl,
      by rw [countEvents, filter_map_range_retry_eq_nil isNoModel (fun _ _ => rfl)]; rfl⟩
  · intro hdis
    exact execute_of_disabled config request runner cfg hres hdis

/-- Witness for C6 (amended): `max_retries = 1`, runner always failing. -/
theorem C6_retry_event_emission_witness :
    ((⟨"m", [("m", ⟨"m", 1, true⟩)], []⟩ : RouterConfig).get_backend
        (Router.route ⟨"m", [("m", ⟨"m", 1, true⟩)], []⟩ []) = some ⟨"m", 1, true⟩) ∧
    ((⟨"m", 1, true⟩ : ModelBackendConfig).enabled = true) ∧
    (countEvents isBackendRetry
        (Router.execute ⟨"m", [("m", ⟨"m", 1, true⟩)], []⟩ []
          (fun _ => .error "boom")).2 = 1 + 1 ∧
      countEvents isRouterError
        (Router.execute ⟨"m", [("m", ⟨"m", 1, true⟩)], []⟩ []
          (fun _ => .error "boom")).2 = 1 ∧
      countEvents isNoModel
        (Router.execute ⟨"m", [("m", ⟨"m", 1, true⟩)], []⟩ []
          (fun _ => .error "boom")).2 = 0) := by
  have hres : (⟨"m", [("m", ⟨"m", 1, true⟩)], []⟩ : RouterConfig).get_backend
      (Router.route ⟨"m", [("m", ⟨"m", 1, true⟩)], []⟩ []) = some ⟨"m", 1, true⟩ := rfl
  have h := C6_retry_event_emission ⟨"m", [("m", ⟨"m", 1, true⟩)], []⟩ []
    (fun _ => .error "boom") (fun _ => "boom") ⟨none⟩ 0 ⟨"m", 1, true⟩ hres
  exact ⟨hres, rfl, h.1 rfl (fun j _ => rfl)⟩

/-! ## Routing rule lemmas -/

lemma find?_append_cons {α : Type} (p : α → Bool) (pre : List α) (x : α) (post : List α)
    (hpre : ∀ a ∈ pre, p a = false) (hx : p x = true) :
    (pre ++ x :: post).find? p = some x := by
  induction pre with
  | nil =>
    simp only [List.nil_append, List.find?]
    rw [hx]
  | cons a as ih =>
    have ha := hpre a (List.mem_cons_self a as)
    simp only [List.cons_append, List.find?, ha]
    exact ih (fun b hb => hpre b (List.mem_cons_of_mem a hb))

/-- C7.  Routing rule selection: matching is conjunctive equality of all the
condition map's keys against the request, and an empty condition map never
matches; the router selects the (truthy) model of the first matching rule in
declared order; when no rule matches, the configured default model is used. -/
theorem C7_routing_rule_selection (config : RouterConfig) (request : Request) :
    (∀ rule : RoutingRule, rule_matches rule request = true ↔
      rule.cond ≠ [] ∧ ∀ kv ∈ rule.cond, requestGet request kv.1 = some kv.2) ∧
    (∀ rule : RoutingRule, rule.cond = [] → rule_matches rule request = false) ∧
    (∀ (pre : List RoutingRule) (rule : RoutingRule) (post : List RoutingRule),
      config.routing_rules = pre ++ rule :: post →
      (∀ r ∈ pre, rule_matches r request = false) →
      rule_matches rule request = true →
      rule.use_model ≠ "" →
      Router.route config request = rule.use_model) ∧
    ((∀ r ∈ config.routing_rules, rule_matches r request = false) →
      Router.route config request = config.default_model) := by
  refine ⟨?_, ?_, ?_, ?_⟩
  · intro rule
    by_cases hc : rule.cond = []
    · simp [rule_matches, hc]
    · simp [rule_matches, List.isEmpty_iff, hc, List.all_eq_true]
  · intro rule hc
    simp [rule_matches, hc]
  · intro pre rule post hsplit hpre hmatch hmodel
    have hfind : config.routing_rules.find? (fun r => rule_matches r request) = some rule := by
      rw [hsplit]
      exact find?_append_cons _ pre rule post hpre hmatch
    rw [Router.route, evaluate_rules, hfind]
    simp [hmodel]
  · intro hnone
    have hfind : config.routing_rules.find? (fun r => rule_matches r request) = none :=
      List.find?_eq_none.mpr (fun r hr => by simp [hnone r hr])
    rw [Router.route, evaluate_rules, hfind]

/-- Witness for C7: one rule matching the request, with a non-empty model
name; also the no-match case on a different request. -/
theorem C7_routing_rule_selection_witness :
    ((⟨"default-model", [], [⟨[("task", "summarize")], "gpt-4"⟩]⟩ : RouterConfig).routing_rules =
      [] ++ (⟨[("task", "summarize")], "gpt-4"⟩ : RoutingRule) :: []) ∧
    (rule_matches ⟨[("task", "summarize")], "gpt-4"⟩ [("task", "summarize")] = true) ∧
    (("gpt-4" : String) ≠ "") ∧
    Router.route ⟨"default-model", [], [⟨[("task", "summarize")], "gpt-4"⟩]⟩
      [("task", "summarize")] = "gpt-4" := by
  have h := C7_routing_rule_selection
    ⟨"default-model", [], [⟨[("task", "summarize")], "gpt-4"⟩]⟩ [("task", "summarize")]
  refine ⟨rfl, rfl, by decide, ?_⟩
  exact h.2.2.1 [] ⟨[("task", "summarize")], "gpt-4"⟩ [] rfl (fun r hr => absurd hr (by simp))
    rfl (by decide)

end Eleanor
